import Mathlib

/-!
Shallow embedding of the Express/Mongoose REST API
(routes/Users registered before routes/Auth on the same `/api/` prefix,
handlers from the user-routes file and `routes/Auth.js`, error middleware
from `server.js`, schemas from `models/User.js` and `models/Admin.js`).

Modelling conventions:
- Mongoose ObjectIds are modelled as `Nat`; a path/id string casts to an id
  exactly when it is a decimal numeral (`String.toNat?`), mirroring the fact
  that only well-formed ObjectId strings cast and anything else raises a
  CastError.  Timestamps are `Nat` milliseconds.
- JavaScript truthiness is modelled explicitly where the source relies on it:
  `undefined`/`""` are falsy strings, `undefined`/`0` are falsy numbers.
- `bcrypt.compare` and `jwt.sign`/`jwt.verify` are external cryptographic
  collaborators; handlers are parameterised over them (`compare`, `sign`,
  `verify`), so every theorem quantifying over these parameters holds for any
  behaviour of the cryptography.
- Thrown errors / rejected promises are `Except ErrObj _`; the async wrapper
  plus the error middleware turn an `ErrObj` into a `Response` via
  `errorHandler`, exactly as `asyncHandler` + the `errorHandler` middleware do.
-/

/-- UserRecord persisted by the store (`models/User.js`): generated id, name,
email, optional non-negative age, createdAt timestamp. -/
structure User where
  id : Nat
  name : String
  email : String
  age : Option Nat := none
  createdAt : Nat := 0
deriving Repr, DecidableEq

/-- AdminRecord persisted by the store (`models/Admin.js`): generated id, name,
email, bcrypt password hash, createdAt timestamp. -/
structure Admin where
  id : Nat
  name : String
  email : String
  password : String
  createdAt : Nat := 0
deriving Repr, DecidableEq

/-- Payloads carried in the `data` field of a response envelope. -/
inductive DataVal where
  | user (u : User)
  | users (l : List User)
  | adminNoPassword (id : Nat) (name email : String) (createdAt : Nat)
  | emptyObj
deriving Repr, DecidableEq

/-- The pagination object the pagination route would emit. -/
structure Pagination where
  current : Nat
  pages : Nat
  total : Nat
deriving Repr, DecidableEq

/-- HTTP response: status code plus the uniform JSON envelope
`{success, data?, count?, error?, message?, token?, deleted?, modified?,
pagination?}` used by every handler. -/
structure Response where
  status : Nat
  success : Bool
  data : Option DataVal := none
  count : Option Nat := none
  error : Option String := none
  message : Option String := none
  token : Option String := none
  deleted : Option Nat := none
  modified : Option Nat := none
  pagination : Option Pagination := none
deriving Repr, DecidableEq

/-- A JavaScript `Error` as the handlers use it: a message and an optionally
attached `statusCode` property. -/
structure ErrObj where
  message : String
  statusCode : Option Nat := none
deriving Repr, DecidableEq

/-- JavaScript `v || d` on an optional number: `undefined` and `0` are falsy. -/
def jsOrNat (v : Option Nat) (d : Nat) : Nat :=
  match v with
  | some n => if n = 0 then d else n
  | none => d

/-- JavaScript `s || d` on a string: the empty string is falsy. -/
def jsOrStr (s d : String) : String :=
  if s = "" then d else s

/-- JavaScript truthiness of an optional string (`!email` etc.):
`undefined` and `""` are falsy. -/
def jsTruthyStr (s : Option String) : Bool :=
  match s with
  | none => false
  | some "" => false
  | some _ => true

/-- Error middleware from `server.js`:
`res.status(err.statusCode || 500).json({success: false, error: err.message || "Server Error"})`. -/
def errorHandler (e : ErrObj) : Response :=
  { status := jsOrNat e.statusCode 500
    success := false
    error := some (jsOrStr e.message "Server Error") }

/-- JavaScript `String.prototype.split` with a single-character separator,
modelled on the character list: splits at every occurrence, keeping empty
pieces (`"a  b".split(" ") = ["a","","b"]`, `"".split(" ") = [""]`). -/
def jsSplit (sep : Char) : List Char → List (List Char)
  | [] => [[]]
  | c :: cs =>
    match jsSplit sep cs with
    | [] => [[c]]
    | p :: ps => if c = sep then [] :: p :: ps else (c :: p) :: ps

/-- Token extraction from the authenticate middleware:
`req.headers.authorization?.split(" ")[1]` — `none` when the header is absent
or the split has no second part. -/
def extractToken (authorization : Option (List Char)) : Option (List Char) :=
  match authorization with
  | none => none
  | some h => (jsSplit ' ' h)[1]?

/-- Authentication middleware (`authenticate` in the user-routes file),
parameterised over `jwt.verify`: missing/falsy token throws
`Authentication required` with `statusCode = 401`; the catch block stamps
`statusCode = 401` onto any error (including verification failures) before
passing it on. On success it yields the decoded subject. -/
def authenticate (verify : List Char → Except ErrObj Nat)
    (authorization : Option (List Char)) : Except ErrObj Nat :=
  match extractToken authorization with
  | none => .error { message := "Authentication required", statusCode := some 401 }
  | some [] => .error { message := "Authentication required", statusCode := some 401 }
  | some t =>
    match verify t with
    | .error e => .error { message := e.message, statusCode := some 401 }
    | .ok subject => .ok subject

/-- A protected route: `authenticate` runs first; on failure the error goes to
the error middleware and the route handler is never invoked; on success the
handler runs (its own thrown errors also land in the error middleware). -/
def gatedRoute (verify : List Char → Except ErrObj Nat)
    (authorization : Option (List Char))
    (handler : Nat → Except ErrObj Response) : Response :=
  match authenticate verify authorization with
  | .error e => errorHandler e
  | .ok subject =>
    match handler subject with
    | .error e => errorHandler e
    | .ok r => r

/-- `Admin.findOne({email})` against the admin collection, modelled as lookup
by exact stored-email match. -/
def findOneAdminByEmail (db : List Admin) (email : String) : Option Admin :=
  db.find? (fun a => a.email == email)

/-- Login handler (`routes/Auth.js` POST `/login`), parameterised over
`bcrypt.compare` and `jwt.sign`:
missing/empty email or password → 400 `Email and Password are required`;
unknown email → 401 `Invalid Email or Password`;
failed hash comparison → 401 `Invalid Email or Password` (same body);
otherwise 200 with the admin (password stripped) and a signed token. -/
def login (compare : String → String → Bool) (sign : Nat → String)
    (db : List Admin) (email password : Option String) : Response :=
  if !(jsTruthyStr email && jsTruthyStr password) then
    { status := 400, success := false
      message := some "Email and Password are required" }
  else
    match findOneAdminByEmail db (email.getD "") with
    | none =>
      { status := 401, success := false
        message := some "Invalid Email or Password" }
    | some admin =>
      if !(compare (password.getD "") admin.password) then
        { status := 401, success := false
          message := some "Invalid Email or Password" }
      else
        { status := 200, success := true
          message := some "Login Successful"
          data := some (.adminNoPassword admin.id admin.name admin.email admin.createdAt)
          token := some (sign admin.id) }

/-- HTTP methods used by the routers. -/
inductive Method where
  | get | post | put | del
deriving Repr, DecidableEq

/-- One segment of an Express route pattern: a literal segment or a `:name`
parameter capture. -/
inductive Seg where
  | lit (s : String)
  | param (s : String)
deriving Repr, DecidableEq

/-- Identifier for each registered user-route handler, in source terms. -/
inductive RouteId where
  | createOne | createBulk | listAll | readOne | updateOne | updateBulk
  | deleteOne | deleteBulk | searchUsers | paginate
deriving Repr, DecidableEq

/-- Express pattern matching on one path: segment counts must agree, literal
segments must be equal, parameter segments capture the path segment. -/
def segsMatch : List Seg → List String → Option (List (String × String))
  | [], [] => some []
  | [], _ :: _ => none
  | _ :: _, [] => none
  | .lit s :: ps, x :: xs => if s = x then segsMatch ps xs else none
  | .param n :: ps, x :: xs => (segsMatch ps xs).map (fun b => (n, x) :: b)

/-- The user-routes register, in source order (the order `router.post`/`get`/
`put`/`delete` calls appear in the user-routes file). Express tries them in
this order and the first match wins. -/
def routes : List (Method × List Seg × RouteId) :=
  [ (.post, [.lit "users"], .createOne)
  , (.post, [.lit "users", .lit "bulk"], .createBulk)
  , (.get, [.lit "users"], .listAll)
  , (.get, [.lit "users", .param "id"], .readOne)
  , (.put, [.lit "users", .param "id"], .updateOne)
  , (.put, [.lit "users", .lit "bulk"], .updateBulk)
  , (.del, [.lit "users", .param "id"], .deleteOne)
  , (.del, [.lit "users", .lit "bulk"], .deleteBulk)
  , (.get, [.lit "search", .param "key"], .searchUsers)
  , (.get, [.lit "users", .lit "page", .param "page"], .paginate) ]

/-- Route dispatch: the first registered route whose method and pattern match
the request, together with its captured parameters. -/
def dispatch (m : Method) (path : List String) :
    Option (RouteId × List (String × String)) :=
  routes.findSome? (fun r =>
    if r.1 = m then (segsMatch r.2.1 path).map (fun b => (r.2.2, b)) else none)

/-- Captured parameter lookup (`req.params.id` etc.). -/
def lookupParam (ps : List (String × String)) (n : String) : String :=
  match ps.find? (fun p => p.1 == n) with
  | some p => p.2
  | none => ""

/-- Mongoose cast of a path id string to an ObjectId: ids are modelled as
`Nat` and only decimal numerals cast; any other string (such as `bulk`)
raises a CastError. -/
def castId (s : String) : Option Nat :=
  if s.data ≠ [] ∧ s.data.all Char.isDigit then
    some (s.data.foldl (fun n c => n * 10 + (c.toNat - 48)) 0)
  else none

/-- `User.findById(id)`: cast the id (CastError on failure, no statusCode),
then look the record up. -/
def findById (db : List User) (id : String) : Except ErrObj (Option User) :=
  match castId id with
  | none => .error { message := "Cast to ObjectId failed", statusCode := none }
  | some n => .ok (db.find? (fun u => u.id == n))

/-- Partial update document (`$set` fields) for a user record. -/
structure UserPatch where
  name : Option String := none
  email : Option String := none
  age : Option Nat := none
deriving Repr, DecidableEq

/-- Apply a `$set` update document to a record. -/
def applyPatch (p : UserPatch) (u : User) : User :=
  { u with
    name := p.name.getD u.name
    email := p.email.getD u.email
    age := p.age <|> u.age }

/-- Body of a PUT request as the handlers receive it: either a partial-fields
update document, or the bulk array of `{id, data}` pairs. -/
inductive PutBody where
  | patchDoc (p : UserPatch)
  | arr (l : List (String × UserPatch))
deriving Repr, DecidableEq

/-- `User.findByIdAndUpdate(id, body, {new: true, runValidators: true})`:
casts the id first (CastError on failure); an array passed as the update
document is itself rejected by Mongoose; otherwise applies the `$set` fields
and returns the updated record (`new: true`). Mongoose validator failures on
the updated fields are not modelled (no claim depends on them). -/
def findByIdAndUpdate (db : List User) (id : String) (body : PutBody) :
    Except ErrObj (List User × Option User) :=
  match castId id with
  | none => .error { message := "Cast to ObjectId failed", statusCode := none }
  | some n =>
    match body with
    | .arr _ => .error { message := "Invalid update document", statusCode := none }
    | .patchDoc p =>
      match db.find? (fun u => u.id == n) with
      | none => .ok (db, none)
      | some u =>
        let u2 := applyPatch p u
        .ok (db.map (fun v => if v.id == n then u2 else v), some u2)

/-- Source line `const user = await User.deleteById(req.params.id)`: Mongoose
models expose no `deleteById` static (the API has `findByIdAndDelete`,
`deleteOne`, `deleteMany`), so this call throws
`TypeError: User.deleteById is not a function`, which carries no statusCode. -/
def deleteById (_db : List User) (_id : String) :
    Except ErrObj (List User × Option User) :=
  .error { message := "User.deleteById is not a function", statusCode := none }

/-- `User.deleteMany({_id: {$in: ids}})`: remove every record whose id is in
the set, returning the new collection and the `deletedCount`. -/
def deleteMany (db : List User) (ids : List Nat) : List User × Nat :=
  (db.filter (fun u => !(ids.contains u.id)),
   (db.filter (fun u => ids.contains u.id)).length)

/-- `User.bulkWrite(operations)` for the `updateOne`/`$set` operations the
bulk-update handler builds: each `{id, data}` pair is applied independently;
`modifiedCount` counts the operations that matched a record and changed it. -/
def bulkWrite (db : List User) (ops : List (String × UserPatch)) :
    Except ErrObj (List User × Nat) :=
  match ops with
  | [] => .ok (db, 0)
  | (id, p) :: rest =>
    match castId id with
    | none => .error { message := "Cast to ObjectId failed", statusCode := none }
    | some n =>
      let step : List User × Nat :=
        match db.find? (fun u => u.id == n) with
        | none => (db, 0)
        | some u =>
          let u2 := applyPatch p u
          (db.map (fun v => if v.id == n then u2 else v), if u2 = u then 0 else 1)
      match bulkWrite step.1 rest with
      | .error e => .error e
      | .ok (db2, m) => .ok (db2, step.2 + m)

/-- GET `/users/:id` handler: 404 `User not found` when the id resolves to no
record, else 200 with the record. -/
def getUserHandler (db : List User) (id : String) : Except ErrObj Response :=
  match findById db id with
  | .error e => .error e
  | .ok none => .error { message := "User not found", statusCode := some 404 }
  | .ok (some u) => .ok { status := 200, success := true, data := some (.user u) }

/-- PUT `/users/:id` handler: `findByIdAndUpdate` with the request body, 404
`User not found` on no match, else 200 with the updated record. -/
def updateUserHandler (db : List User) (id : String) (body : PutBody) :
    Except ErrObj (List User × Response) :=
  match findByIdAndUpdate db id body with
  | .error e => .error e
  | .ok (_, none) => .error { message := "User not found", statusCode := some 404 }
  | .ok (db2, some u) =>
    .ok (db2, { status := 200, success := true, data := some (.user u) })

/-- PUT `/users/bulk` handler: builds one `$set` operation per `{id, data}`
pair, runs `bulkWrite`, and reports only the aggregate `modifiedCount`. -/
def updateBulkHandler (db : List User) (body : List (String × UserPatch)) :
    Except ErrObj (List User × Response) :=
  match bulkWrite db body with
  | .error e => .error e
  | .ok (db2, m) =>
    .ok (db2, { status := 200, success := true, modified := some m })

/-- DELETE `/users/:id` handler: calls `User.deleteById` (see `deleteById`),
404 on falsy result, else 200 with an empty data object. -/
def deleteUserHandler (db : List User) (id : String) :
    Except ErrObj (List User × Response) :=
  match deleteById db id with
  | .error e => .error e
  | .ok (_, none) => .error { message := "User not found", statusCode := some 404 }
  | .ok (db2, some _) =>
    .ok (db2, { status := 200, success := true, data := some .emptyObj })

/-- DELETE `/users/bulk` handler: `deleteMany` over the ids in the body and a
200 response carrying the deleted count. -/
def deleteBulkHandler (db : List User) (ids : List Nat) :
    Except ErrObj (List User × Response) :=
  let r := deleteMany db ids
  .ok (r.1, { status := 200, success := true, deleted := some r.2 })

/-- A full authenticated DELETE request against the user router: dispatch the
path over the registered routes, run the matched handler (the `:id` handler
gets `req.params.id`; the bulk handler gets the `{ids: [...]}` body), and
render any thrown error through the error middleware. The store is returned
alongside the response (unchanged when the handler threw). -/
def runDelete (db : List User) (path : List String) (ids : List Nat) :
    List User × Response :=
  match dispatch .del path with
  | some (.deleteOne, ps) =>
    match deleteUserHandler db (lookupParam ps "id") with
    | .error e => (db, errorHandler e)
    | .ok r => r
  | some (.deleteBulk, _) =>
    match deleteBulkHandler db ids with
    | .error e => (db, errorHandler e)
    | .ok r => r
  | _ => (db, { status := 404, success := false })

/-- A full authenticated PUT request against the user router: dispatch the
path, run the matched handler on the request body (`req.body` is handed to
whichever handler matched), and render any thrown error through the error
middleware. -/
def runPut (db : List User) (path : List String) (body : PutBody) :
    List User × Response :=
  match dispatch .put path with
  | some (.updateOne, ps) =>
    match updateUserHandler db (lookupParam ps "id") body with
    | .error e => (db, errorHandler e)
    | .ok r => r
  | some (.updateBulk, _) =>
    match (match body with
           | .arr l => updateBulkHandler db l
           | .patchDoc _ => updateBulkHandler db []) with
    | .error e => (db, errorHandler e)
    | .ok r => r
  | _ => (db, { status := 404, success := false })

/-- One token of the search key as the `$regex` engine reads it: `.` is the
any-character metacharacter, every other character in the supported fragment
is a literal. The model covers the fragment of keys containing no
metacharacter other than `.` (every theorem about search stays inside it). -/
inductive RTok where
  | lit (c : Char)
  | dot
deriving Repr, DecidableEq

/-- Regex metacharacters of JavaScript regular expressions. -/
def isRegexMeta (c : Char) : Bool :=
  c ∈ ['.', '^', '$', '*', '+', '?', '(', ')', '[', ']', '{', '}', '|', '\\']

/-- Compile the search key into regex tokens (supported fragment: `.` becomes
the any-character token, other characters are literals). -/
def parseRegex (key : List Char) : List RTok :=
  key.map (fun c => if c = '.' then RTok.dot else RTok.lit c)

/-- One token against one character, case-insensitively (the `i` option of the
`$regex` filter). -/
def tokMatches (t : RTok) (c : Char) : Bool :=
  match t with
  | .dot => true
  | .lit l => l.toLower == c.toLower

/-- Whether the token list matches a prefix of the text. -/
def matchHere : List RTok → List Char → Bool
  | [], _ => true
  | _ :: _, [] => false
  | t :: ts, c :: cs => tokMatches t c && matchHere ts cs

/-- Whether the token list matches anywhere in the text (an unanchored regex
test, as `$regex` performs). -/
def reTest (ts : List RTok) : List Char → Bool
  | [] => matchHere ts []
  | c :: cs => matchHere ts (c :: cs) || reTest ts cs

/-- GET `/search/:key` handler:
`User.find({$or: [{name: {$regex: key, $options: "i"}}, {email: ...}]})`,
then a 200 envelope with the count and the matches. -/
def searchHandler (db : List User) (key : String) : Response :=
  let ts := parseRegex key.data
  let users := db.filter (fun u => reTest ts u.name.data || reTest ts u.email.data)
  { status := 200, success := true
    count := some users.length
    data := some (.users users) }

/-- Case-insensitive `startsWith` on character lists (spec-side helper). -/
def ciStartsWith : List Char → List Char → Bool
  | [], _ => true
  | _ :: _, [] => false
  | k :: ks, c :: cs => (k.toLower == c.toLower) && ciStartsWith ks cs

/-- Case-insensitive substring containment on character lists (spec-side
helper). -/
def ciContainsB (k : List Char) : List Char → Bool
  | [] => ciStartsWith k []
  | c :: cs => ciStartsWith k (c :: cs) || ciContainsB k cs

/-- Modelled from the spec's words, for refinement comparison with
`searchHandler`: the records whose name or email contains the key as a
case-insensitive substring. -/
def specCiSubstringSearch (db : List User) (key : String) : List User :=
  db.filter (fun u =>
    ciContainsB key.data u.name.data || ciContainsB key.data u.email.data)

/-- GET `/users/page/:page?limit=N` handler: computes
`startIndex = (page - 1) * limit`, takes the page slice
`User.find().skip(startIndex).limit(limit)`, then evaluates
`users.countDocuments()` — but the awaited slice is a plain array, which has
no `countDocuments` method, so the handler throws
`TypeError: users.countDocuments is not a function` (no statusCode) before
building the success envelope. Numeric path/query inputs are modelled as
`Nat` (the non-numeric defect class of spec §9 is out of scope). -/
def paginationHandler (db : List User) (page limit : Nat) :
    Except ErrObj Response :=
  let startIndex := (page - 1) * limit
  let _users := (db.drop startIndex).take limit
  .error { message := "users.countDocuments is not a function", statusCode := none }

/-- A full authenticated pagination request: run the handler and render its
thrown error through the error middleware. -/
def runPaginate (db : List User) (page limit : Nat) : Response :=
  match paginationHandler db page limit with
  | .error e => errorHandler e
  | .ok r => r

/-- The `createdAt` default of the user schema. The schema literal writes
`default: Date.now()` — a call, not a function reference — so the default is
the single timestamp taken when the schema module is loaded, shared by every
record. -/
def createdAtDefaultValue (schemaLoadTime : Nat) : Nat := schemaLoadTime

/-- Creation of a UserRecord at time `now` from the supplied fields:
`createdAt` falls back to the schema default when absent. The record-creation
time `now` is listed to state the claim, but the schema default does not
depend on it. -/
def createUserRecord (schemaLoadTime _now : Nat) (id : Nat)
    (name email : String) (age : Option Nat) (createdAt : Option Nat) : User :=
  { id := id, name := name, email := email, age := age
    createdAt := createdAt.getD (createdAtDefaultValue schemaLoadTime) }

/-- A split with no separator occurrence yields the whole string as the single
piece (so `split(" ")[1]` is `undefined`). -/
theorem jsSplit_no_sep (sep : Char) (cs : List Char) (h : sep ∉ cs) :
    jsSplit sep cs = [cs] := by
  induction cs with
  | nil => rfl
  | cons c cs ih =>
    simp only [List.mem_cons, not_or] at h
    rw [jsSplit, ih h.2]
    have hc : ¬c = sep := fun e => h.1 e.symm
    simp [hc]

/-- Splitting a well-formed `Bearer <token>` header at spaces yields exactly
the scheme word and the token, when the token itself has no space. -/
theorem jsSplit_bearer (t : List Char) (h : ' ' ∉ t) :
    jsSplit ' ' ('B' :: 'e' :: 'a' :: 'r' :: 'e' :: 'r' :: ' ' :: t) =
      [['B', 'e', 'a', 'r', 'e', 'r'], t] := by
  rw [jsSplit, jsSplit, jsSplit, jsSplit, jsSplit, jsSplit, jsSplit,
      jsSplit_no_sep ' ' t h]
  simp

/-- C6: every failure object reaching the error middleware is rendered as
`{success: false, error: message}` with HTTP status the carried status code,
or 500 when none is carried (message nonempty and carried code nonzero, as
holds for every error this program constructs). -/
theorem c6_error_translator (e : ErrObj)
    (hm : e.message ≠ "") (hs : e.statusCode ≠ some 0) :
    (errorHandler e).success = false ∧
    (errorHandler e).error = some e.message ∧
    (errorHandler e).status = e.statusCode.getD 500 := by
  obtain ⟨m, sc⟩ := e
  refine ⟨rfl, by simp [errorHandler, jsOrStr, hm], ?_⟩
  cases sc with
  | none => rfl
  | some n =>
    have hn : n ≠ 0 := by
      intro e0
      exact hs (by rw [e0])
    simp [errorHandler, jsOrNat, hn]

/-- Closed instance of `c6_error_translator` at the 404 error the read-one
handler throws. -/
theorem c6_error_translator_witness :
    (errorHandler { message := "User not found", statusCode := some 404 }).success = false ∧
    (errorHandler { message := "User not found", statusCode := some 404 }).error =
      some "User not found" ∧
    (errorHandler { message := "User not found", statusCode := some 404 }).status =
      (some 404 : Option Nat).getD 500 :=
  c6_error_translator { message := "User not found", statusCode := some 404 }
    (by decide) (by decide)

/-- C2: on every protected route, a request with no Authorization header is
answered 401 with the `Authentication required` error, and a request whose
Bearer token fails verification (expired, tampered, malformed) is answered
401 with the verification error's message; in both cases the gated handler is
never invoked (the response does not depend on it). -/
theorem c2_auth_gate (verify : List Char → Except ErrObj Nat)
    (handler : Nat → Except ErrObj Response) :
    gatedRoute verify none handler =
      { status := 401, success := false, error := some "Authentication required" } ∧
    (∀ (t : List Char) (e : ErrObj), ' ' ∉ t → t ≠ [] → e.message ≠ "" →
      verify t = .error e →
      gatedRoute verify (some ('B' :: 'e' :: 'a' :: 'r' :: 'e' :: 'r' :: ' ' :: t)) handler =
        { status := 401, success := false, error := some e.message }) := by
  constructor
  · rfl
  · intro t e hsp hne hmsg hv
    cases t with
    | nil => exact absurd rfl hne
    | cons c cs =>
      have hx : extractToken
          (some ('B' :: 'e' :: 'a' :: 'r' :: 'e' :: 'r' :: ' ' :: c :: cs)) =
          some (c :: cs) := by
        show (jsSplit ' ' ('B' :: 'e' :: 'a' :: 'r' :: 'e' :: 'r' :: ' ' :: c :: cs))[1]? =
          some (c :: cs)
        rw [jsSplit_bearer (c :: cs) hsp]
        rfl
      unfold gatedRoute authenticate
      rw [hx]
      simp [hv, errorHandler, jsOrNat, jsOrStr, hmsg]

/-- Closed instance of `c2_auth_gate`: no header, and the single-character
token `x` rejected by a verifier that reports `jwt expired`. -/
theorem c2_auth_gate_witness :
    gatedRoute (fun _ => .error { message := "jwt expired" }) none
        (fun _ => .ok { status := 200, success := true }) =
      { status := 401, success := false, error := some "Authentication required" } ∧
    gatedRoute (fun _ => .error { message := "jwt expired" })
        (some ('B' :: 'e' :: 'a' :: 'r' :: 'e' :: 'r' :: ' ' :: ['x']))
        (fun _ => .ok { status := 200, success := true }) =
      { status := 401, success := false, error := some "jwt expired" } := by
  have h := c2_auth_gate (fun _ => .error { message := "jwt expired" })
    (fun _ => .ok { status := 200, success := true })
  exact ⟨h.1, h.2 ['x'] { message := "jwt expired" } (by decide) (by decide) (by decide) rfl⟩

/-- C10: an Authorization header with no space-separated second part (bare
scheme word, or a raw token without the `Bearer ` prefix) is treated exactly
like a missing header: same 401 `Authentication required` response, and no
verifier is ever consulted (the response is the same for any two verifiers). -/
theorem c10_malformed_header_like_missing
    (verifyA verifyB : List Char → Except ErrObj Nat)
    (handler : Nat → Except ErrObj Response) (h : List Char) (hs : ' ' ∉ h) :
    gatedRoute verifyA (some h) handler = gatedRoute verifyB none handler ∧
    gatedRoute verifyA (some h) handler =
      { status := 401, success := false, error := some "Authentication required" } := by
  have hx : extractToken (some h) = none := by
    show (jsSplit ' ' h)[1]? = none
    rw [jsSplit_no_sep ' ' h hs]
    rfl
  constructor
  · unfold gatedRoute authenticate
    rw [hx]
    simp [extractToken]
  · unfold gatedRoute authenticate
    rw [hx]
    simp [errorHandler, jsOrNat, jsOrStr]

/-- Closed instance of `c10_malformed_header_like_missing` at the bare header
`Bearer`, with two verifiers that disagree everywhere. -/
theorem c10_malformed_header_like_missing_witness :
    gatedRoute (fun _ => .ok 7) (some ['B', 'e', 'a', 'r', 'e', 'r'])
        (fun _ => .ok { status := 200, success := true }) =
      gatedRoute (fun _ => .error { message := "invalid signature" }) none
        (fun _ => .ok { status := 200, success := true }) ∧
    gatedRoute (fun _ => .ok 7) (some ['B', 'e', 'a', 'r', 'e', 'r'])
        (fun _ => .ok { status := 200, success := true }) =
      { status := 401, success := false, error := some "Authentication required" } :=
  c10_malformed_header_like_missing (fun _ => .ok 7)
    (fun _ => .error { message := "invalid signature" })
    (fun _ => .ok { status := 200, success := true })
    ['B', 'e', 'a', 'r', 'e', 'r'] (by decide)

/-- C1: the login handler answers an unknown email and a failed password
comparison with the same HTTP status (401) and the same message
(`Invalid Email or Password`), so the two failure causes are
indistinguishable to the caller. -/
theorem c1_login_indistinguishable
    (compare : String → String → Bool) (sign : Nat → String) (db : List Admin)
    (e1 p1 e2 p2 : Option String) (a : Admin)
    (he1 : jsTruthyStr e1 = true) (hp1 : jsTruthyStr p1 = true)
    (he2 : jsTruthyStr e2 = true) (hp2 : jsTruthyStr p2 = true)
    (hfind1 : findOneAdminByEmail db (e1.getD "") = none)
    (hfind2 : findOneAdminByEmail db (e2.getD "") = some a)
    (hcmp : compare (p2.getD "") a.password = false) :
    login compare sign db e1 p1 = login compare sign db e2 p2 ∧
    (login compare sign db e1 p1).status = 401 ∧
    (login compare sign db e1 p1).message = some "Invalid Email or Password" := by
  unfold login
  rw [he1, hp1, he2, hp2, hfind1, hfind2]
  simp [hcmp]

/-- Closed instance of `c1_login_indistinguishable`: one stored admin, a login
with an unknown email and a login with the right email but a comparison that
fails. -/
theorem c1_login_indistinguishable_witness :
    login (fun _ _ => false) (fun _ => "tok")
        [{ id := 1, name := "A", email := "a@x.com", password := "h" }]
        (some "b@x.com") (some "pw") =
      login (fun _ _ => false) (fun _ => "tok")
        [{ id := 1, name := "A", email := "a@x.com", password := "h" }]
        (some "a@x.com") (some "pw") ∧
    (login (fun _ _ => false) (fun _ => "tok")
        [{ id := 1, name := "A", email := "a@x.com", password := "h" }]
        (some "b@x.com") (some "pw")).status = 401 ∧
    (login (fun _ _ => false) (fun _ => "tok")
        [{ id := 1, name := "A", email := "a@x.com", password := "h" }]
        (some "b@x.com") (some "pw")).message = some "Invalid Email or Password" :=
  c1_login_indistinguishable (fun _ _ => false) (fun _ => "tok")
    [{ id := 1, name := "A", email := "a@x.com", password := "h" }]
    (some "b@x.com") (some "pw") (some "a@x.com") (some "pw")
    { id := 1, name := "A", email := "a@x.com", password := "h" }
    rfl rfl rfl rfl (by decide) (by decide) rfl

/-- On a key with no regex metacharacter, compilation yields only literal
tokens. -/
theorem parseRegex_no_meta (key : List Char)
    (h : ∀ c ∈ key, isRegexMeta c = false) :
    parseRegex key = key.map RTok.lit := by
  unfold parseRegex
  apply List.map_congr_left
  intro c hc
  have hm := h c hc
  have hcd : ¬c = '.' := by
    intro e
    rw [e] at hm
    exact absurd hm (by decide)
  simp [hcd]

/-- A literal-only token list matches at the start of a text exactly when the
key is a case-insensitive prefix of it. -/
theorem matchHere_lit (key : List Char) :
    ∀ s, matchHere (key.map RTok.lit) s = ciStartsWith key s := by
  induction key with
  | nil => intro s; rfl
  | cons k ks ih =>
    intro s
    cases s with
    | nil => rfl
    | cons c cs => simp [matchHere, ciStartsWith, tokMatches, ih]

/-- A literal-only token list matches somewhere in a text exactly when the
key is a case-insensitive substring of it. -/
theorem reTest_lit (key : List Char) :
    ∀ s, reTest (key.map RTok.lit) s = ciContainsB key s := by
  intro s
  induction s with
  | nil =>
    show matchHere (key.map RTok.lit) [] = ciStartsWith key []
    exact matchHere_lit key []
  | cons c cs ih => simp [reTest, ciContainsB, matchHere_lit, ih]

/-- C7 as stated is false: the search key is handed to `$regex` as a regular
expression, not a literal substring. On a store holding only
`{name: "Bob", email: "bx"}` the key `.` (any-character metacharacter)
matches the record, yet no field contains `.` as a substring. -/
theorem c7_search_counterexample :
    (searchHandler [{ id := 1, name := "Bob", email := "bx" }] ".").count = some 1 ∧
    (searchHandler [{ id := 1, name := "Bob", email := "bx" }] ".").data =
      some (.users [{ id := 1, name := "Bob", email := "bx" }]) ∧
    specCiSubstringSearch [{ id := 1, name := "Bob", email := "bx" }] "." = [] := by
  decide

/-- C7 amended: for every search key free of regex metacharacters, the search
route returns a 200 success envelope whose data is exactly the records whose
name or email contains the key as a case-insensitive substring, and whose
count is their number (so zero matches give `success: true`, `count: 0`, an
empty list, never an error). -/
theorem c7_search_ci_substring (db : List User) (key : String)
    (hk : ∀ c ∈ key.data, isRegexMeta c = false) :
    searchHandler db key =
      { status := 200, success := true
        count := some (specCiSubstringSearch db key).length
        data := some (.users (specCiSubstringSearch db key)) } := by
  unfold searchHandler specCiSubstringSearch
  rw [parseRegex_no_meta key.data hk]
  simp only [reTest_lit]

/-- Closed instance of `c7_search_ci_substring`: the meta-free key `bo`
against a two-record store. -/
theorem c7_search_ci_substring_witness :
    searchHandler [{ id := 1, name := "Bob", email := "bx" },
                   { id := 2, name := "Ann", email := "a@x" }] "bo" =
      { status := 200, success := true
        count := some (specCiSubstringSearch
          [{ id := 1, name := "Bob", email := "bx" },
           { id := 2, name := "Ann", email := "a@x" }] "bo").length
        data := some (.users (specCiSubstringSearch
          [{ id := 1, name := "Bob", email := "bx" },
           { id := 2, name := "Ann", email := "a@x" }] "bo")) } :=
  c7_search_ci_substring
    [{ id := 1, name := "Bob", email := "bx" },
     { id := 2, name := "Ann", email := "a@x" }] "bo" (by decide)

/-- C3 fails on the code: `DELETE /users/bulk` is captured by the
`/users/:id` route registered earlier (with `id = "bulk"`), whose
`User.deleteById` call throws, so both the first and the repeated call answer
a 500 error — never `deleted: N` then `deleted: 0` — and the store is never
touched. -/
theorem c3_bulk_delete_misrouted :
    dispatch .del ["users", "bulk"] = some (.deleteOne, [("id", "bulk")]) ∧
    runDelete [{ id := 1, name := "Bob", email := "b@x.com" }] ["users", "bulk"] [1] =
      ([{ id := 1, name := "Bob", email := "b@x.com" }],
       { status := 500, success := false
         error := some "User.deleteById is not a function" }) ∧
    runDelete (runDelete [{ id := 1, name := "Bob", email := "b@x.com" }]
        ["users", "bulk"] [1]).1 ["users", "bulk"] [1] =
      runDelete [{ id := 1, name := "Bob", email := "b@x.com" }] ["users", "bulk"] [1] := by
  decide

/-- C4 fails on the code: `PUT /users/bulk` is captured by the `/users/:id`
route registered earlier (with `id = "bulk"`), whose
`findByIdAndUpdate("bulk", body)` fails casting the id, so the request is
answered with a 500 error carrying no modified count, the store is unchanged,
and the bulk handler never runs. -/
theorem c4_bulk_update_misrouted :
    dispatch .put ["users", "bulk"] = some (.updateOne, [("id", "bulk")]) ∧
    runPut [{ id := 1, name := "Bob", email := "b@x.com" }] ["users", "bulk"]
        (.arr [("1", { name := some "Robert" })]) =
      ([{ id := 1, name := "Bob", email := "b@x.com" }],
       { status := 500, success := false
         error := some "Cast to ObjectId failed" }) := by
  decide

/-- C5 fails on the code: even a well-formed `DELETE /users/:id` request
reaching its own route throws `User.deleteById is not a function` (Mongoose
models have no such method), so the record is never removed and the response
is a 500 error, not success-with-empty-data or 404. -/
theorem c5_delete_single_broken :
    dispatch .del ["users", "1"] = some (.deleteOne, [("id", "1")]) ∧
    runDelete [{ id := 1, name := "Bob", email := "b@x.com" }] ["users", "1"] [] =
      ([{ id := 1, name := "Bob", email := "b@x.com" }],
       { status := 500, success := false
         error := some "User.deleteById is not a function" }) := by
  decide

/-- C8 as stated is false at any concrete page request: the handler never
returns a success response with a pagination object, because
`users.countDocuments()` is evaluated on the page slice, a plain array with
no such method. -/
theorem c8_pagination_counterexample :
    (runPaginate [{ id := 1, name := "A", email := "a@x" },
                  { id := 2, name := "B", email := "b@x" },
                  { id := 3, name := "C", email := "c@x" }] 1 2).success = false ∧
    (runPaginate [{ id := 1, name := "A", email := "a@x" },
                  { id := 2, name := "B", email := "b@x" },
                  { id := 3, name := "C", email := "c@x" }] 1 2).pagination = none ∧
    (runPaginate [{ id := 1, name := "A", email := "a@x" },
                  { id := 2, name := "B", email := "b@x" },
                  { id := 3, name := "C", email := "c@x" }] 1 2).status = 500 := by
  decide

/-- C8 amended: the pagination handler attempts to derive the total from the
already-limited page slice, but the slice is a plain array with no
`countDocuments` method, so every page request is answered with a 500 error
response (no success flag, no pagination object). -/
theorem c8_pagination_always_errors (db : List User) (page limit : Nat) :
    runPaginate db page limit =
      { status := 500, success := false
        error := some "users.countDocuments is not a function" } := rfl

/-- C9 fails on the code: the schema writes `default: Date.now()` — the call
is evaluated once when the schema is defined — so two records created at the
distinct times 200 and 300 both receive the schema-load timestamp 100 as
their `createdAt` default. -/
theorem c9_createdAt_default_constant :
    (200 : Nat) ≠ 300 ∧
    (createUserRecord 100 200 1 "A" "a@x" none none).createdAt =
      (createUserRecord 100 300 2 "B" "b@x" none none).createdAt ∧
    (createUserRecord 100 200 1 "A" "a@x" none none).createdAt = 100 := by
  decide
